import Mathlib

/-!
Verification of the gemini-imagen4 MCP server against its specification.

The repository wraps Google's Imagen API as MCP tools/resources. The parts
embedded here are the deterministic pieces the specification's claims are
about:

* the filename/URI derivation performed in the `generate_image_from_text`
  handler (`src/index.ts` and the registry-backed variants), which in the
  source is
  `prompt.toLowerCase().replace(/[^\w\s]/g, "").split(/\s+/).slice(0, 4).join("_")`
  followed by `.slice(0, 30)` and assembly of
  `` `${timestamp}_${sanitizedPrompt}.${extension}` ``;
* the in-memory image registry (a JavaScript `Map` keyed by URI), its
  session-scoped variant, and the `resources/read` handlers;
* the generation handler's classification of the provider response
  (empty / filtered / success / no-data / thrown error) and its reactions,
  including the file-saving variant of `src/index.ts`.

Strings are modelled as Lean `String` (lists of characters).  JavaScript's
`toLowerCase` is modelled by `Char.toLower` (ASCII case mapping; the regexes
involved, `\w` and `\s`, are themselves ASCII/fixed-set so non-ASCII
characters are stripped on every path where case could matter).  Base64
payloads are carried as opaque strings; `Buffer.from(bytes, 'base64')`
followed by a file write is modelled as writing the opaque payload.
-/

namespace GeminiImagen

/-- Character class of JavaScript's `\s` (the whitespace class used by
`replace(/[^\w\s]/g, "")` and `split(/\s+/)`): space, `\t`, `\n`, `\v`,
`\f`, `\r`, and the Unicode whitespace code points. -/
def jsWs (c : Char) : Bool :=
  c == ' ' || c == '\t' || c == '\n' || c == '\r' ||
  c.toNat == 11 || c.toNat == 12 ||
  c.toNat == 160 || c.toNat == 0x1680 ||
  (0x2000 ≤ c.toNat && c.toNat ≤ 0x200a) ||
  c.toNat == 0x2028 || c.toNat == 0x2029 || c.toNat == 0x202f ||
  c.toNat == 0x205f || c.toNat == 0x3000 || c.toNat == 0xfeff

/-- Character class of JavaScript's `\w`: ASCII letters, digits and the
underscore.  (`Char.isAlphanum` is exactly ASCII alphanumeric.) -/
def isWordChar (c : Char) : Bool :=
  c.isAlphanum || c == '_'

/-- The characters kept by `replace(/[^\w\s]/g, "")`. -/
def keepChar (c : Char) : Bool :=
  isWordChar c || jsWs c

/-- JavaScript `String.prototype.split(/\s+/)` on a list of characters.
The flag records whether we are inside a whitespace run whose empty chunk
has already been emitted.  JavaScript semantics: leading or trailing
whitespace yields an empty chunk at that end, interior runs separate
chunks, and the empty string splits to `[""]`. -/
def jsSplitAux : Bool → List Char → List (List Char)
  | _, [] => [[]]
  | skipping, c :: rest =>
    if jsWs c then
      if skipping then jsSplitAux true rest
      else [] :: jsSplitAux true rest
    else
      List.modifyHead (fun t => c :: t) (jsSplitAux false rest)

/-- JavaScript `split(/\s+/)`, entry point. -/
def jsSplitWs (l : List Char) : List (List Char) :=
  jsSplitAux false l

/-- Splitting at every single whitespace character (one chunk boundary per
whitespace character, so adjacent whitespace produces empty chunks).  Used
by the specification-side description of the split. -/
def splitAtEachWs : List Char → List (List Char)
  | [] => [[]]
  | c :: rest =>
    if jsWs c then [] :: splitAtEachWs rest
    else List.modifyHead (fun t => c :: t) (splitAtEachWs rest)

/-- Drop the empty chunks of a list of chunks, except for a chunk in the
last position. -/
def dropInterior : List (List Char) → List (List Char)
  | [] => []
  | [x] => [x]
  | x :: y :: ys =>
    if x = [] then dropInterior (y :: ys) else x :: dropInterior (y :: ys)

/-- Drop the empty chunks of a list of chunks, except in the first and last
positions.  Composed with `splitAtEachWs` this describes splitting on
whitespace *runs* while keeping an empty chunk contributed by leading or
trailing whitespace. -/
def dropInteriorEmpties : List (List Char) → List (List Char)
  | [] => []
  | x :: xs => x :: dropInterior xs

/-- Output image formats admitted by the `outputMimeType` request schema
(`z.enum(["image/png", "image/jpeg"])`). -/
inductive MimeType where
  | png
  | jpeg
deriving DecidableEq, Repr

/-- The file extension chosen by the handler:
`outputMimeType === "image/jpeg" ? "jpg" : "png"`. -/
def extString : MimeType → String
  | .png => "png"
  | .jpeg => "jpg"

/-- The mime-type string of a `MimeType`. -/
def mimeString : MimeType → String
  | .png => "image/png"
  | .jpeg => "image/jpeg"

/-- Application of the zod default for `outputMimeType`
(`.optional().default("image/png")`): an omitted parameter becomes
`image/png`. -/
def applyMimeDefault (o : Option MimeType) : MimeType :=
  o.getD .png

/-- The sanitized core computed by the handler:
`prompt.toLowerCase().replace(/[^\w\s]/g, "").split(/\s+/).slice(0, 4).join("_")`
then `.slice(0, 30)`. -/
def sanitizeCore (prompt : String) : List Char :=
  (List.intercalate ['_'] ((jsSplitWs ((prompt.data.map Char.toLower).filter keepChar)).take 4)).take 30

/-- The filename built by the handler:
`` `${timestamp}_${sanitizedPrompt}.${extension}` ``. -/
def deriveFilename (prompt : String) (timestamp : Nat) (fmt : MimeType) : String :=
  toString timestamp ++ "_" ++ String.mk (sanitizeCore prompt) ++ "." ++ extString fmt

/-- The resource identifier wrapping the filename:
`` `generated-image://${filename}` ``. -/
def deriveUri (prompt : String) (timestamp : Nat) (fmt : MimeType) : String :=
  "generated-image://" ++ deriveFilename prompt timestamp fmt

/-- Modelled from the specification's words for claim C1, strip step:
"strip every character that is not alphanumeric or whitespace" (keeps
alphanumerics and whitespace only; in particular underscores are
stripped). -/
def specKeepCharOrig (c : Char) : Bool :=
  c.isAlphanum || jsWs c

/-- Modelled from the specification's words for claim C1, split step:
"split on whitespace runs" producing the list of (non-empty) words. -/
def specWordsOrig (l : List Char) : List (List Char) :=
  (splitAtEachWs l).filter (fun w => !w.isEmpty)

/-- The filename derivation exactly as claim C1 words it: lower-case,
strip every character that is not alphanumeric or whitespace, split on
whitespace runs, take at most the first 4 words, join with underscores,
truncate to 30 characters, assemble `<timestamp>_<core>.<ext>`. -/
def specDeriveFilenameOrig (prompt : String) (timestamp : Nat) (fmt : MimeType) : String :=
  toString timestamp ++ "_" ++
    String.mk ((List.intercalate ['_'] ((specWordsOrig ((prompt.data.map Char.toLower).filter specKeepCharOrig)).take 4)).take 30)
    ++ "." ++ extString fmt

/-- Strip step of the amended claim C1: strip every character that is not
alphanumeric, an underscore, or whitespace. -/
def specKeepChar (c : Char) : Bool :=
  c.isAlphanum || c == '_' || jsWs c

/-- Split step of the amended claim C1: split at each whitespace character
and then drop the empty words that are neither in first nor in last
position — i.e. split on whitespace runs where leading or trailing
whitespace contributes an empty word at that end. -/
def specSplitWs (l : List Char) : List (List Char) :=
  dropInteriorEmpties (splitAtEachWs l)

/-- The filename derivation as the amended claim C1 words it. -/
def specDeriveFilename (prompt : String) (timestamp : Nat) (fmt : MimeType) : String :=
  toString timestamp ++ "_" ++
    String.mk ((List.intercalate ['_'] ((specSplitWs ((prompt.data.map Char.toLower).filter specKeepChar)).take 4)).take 30)
    ++ "." ++ extString fmt

/-- Claim C7's hypothesis, "a prompt containing only punctuation (no
alphanumeric characters)": every character is neither alphanumeric nor
whitespace. -/
def isPunctOnly (s : String) : Bool :=
  s.data.all (fun c => !c.isAlphanum && !jsWs c)

/-- Hypothesis of the amended claim C7: only punctuation characters, none
of which is an underscore. -/
def isPunctOnlyNoUnderscore (s : String) : Bool :=
  s.data.all (fun c => !c.isAlphanum && !jsWs c && !(c == '_'))

/-- A provider image payload (`generatedImage.image` in the SDK response):
the base64 `imageBytes` and a mime type the handler never reads. -/
structure ImageObj where
  imageBytes : Option String
  mimeType : Option String
deriving DecidableEq, Repr

/-- One entry of `response.generatedImages`: an optional RAI filter reason
and an optional image payload. -/
structure GenImage where
  raiFilteredReason : Option String
  image : Option ImageObj
deriving DecidableEq, Repr

/-- Result of the single `genAI.models.generateImages` call: either a
response (whose `generatedImages` field may be absent) or a thrown
error, carried as its description string. -/
inductive ProviderResult where
  | ok (generatedImages : Option (List GenImage))
  | err (msg : String)
deriving DecidableEq, Repr

/-- `generatedImage.image?.imageBytes` (optional chaining). -/
def bytesOf (g : GenImage) : Option String :=
  g.image.bind ImageObj.imageBytes

/-- JavaScript truthiness of an optional string: `undefined`/`null` and
the empty string are falsy. -/
def truthy : Option String → Bool
  | none => false
  | some s => !(s == "")

/-- The five reactions the `generate_image_from_text` handler can take,
matching its branch structure. -/
inductive Outcome where
  | empty
  | filtered (reason : String)
  | success (bytes : String)
  | noData
  | failure (msg : String)
deriving DecidableEq, Repr

/-- Classification of the provider result, transcribing the handler's
branches in source order: thrown error; missing or empty
`generatedImages`; first entry with a (truthy) `raiFilteredReason`; first
entry with (truthy) `image?.imageBytes`; otherwise no image data. -/
def classify : ProviderResult → Outcome
  | .err m => .failure m
  | .ok none => .empty
  | .ok (some []) => .empty
  | .ok (some (g :: _)) =>
    if truthy g.raiFilteredReason then .filtered (g.raiFilteredReason.getD "")
    else if truthy (bytesOf g) then .success ((bytesOf g).getD "")
    else .noData

/-- The registry entry stored for a generated image (the `GeneratedImage`
interface of the registry-backed variants). -/
structure GeneratedImage where
  uri : String
  filename : String
  imageData : String
  mimeType : String
  prompt : String
  model : String
  timestamp : Nat
deriving DecidableEq, Repr

/-- The in-memory image registry: a JavaScript `Map` from URI to entry,
modelled as an insertion-ordered association list. -/
abbrev Registry := List (String × GeneratedImage)

/-- `Map.has`: is the key present. -/
def hasKey {V : Type} : List (String × V) → String → Bool
  | [], _ => false
  | p :: t, k => if p.1 = k then true else hasKey t k

/-- `Map.get`: exact-key lookup. -/
def mapGet {V : Type} : List (String × V) → String → Option V
  | [], _ => none
  | p :: t, k => if p.1 = k then some p.2 else mapGet t k

/-- `Map.set`: overwrite in place when the key exists (preserving
insertion order), otherwise append. -/
def mapSet {V : Type} (m : List (String × V)) (k : String) (v : V) : List (String × V) :=
  if hasKey m k then
    m.map (fun p => if p.1 = k then (k, v) else p)
  else
    m ++ [(k, v)]

/-- `Map.values()`, in insertion order. -/
def mapValues {V : Type} (m : List (String × V)) : List V :=
  m.map (fun p => p.2)

/-- An MCP content block returned by the tool handler: a text block or an
inline image block. -/
inductive ContentBlock where
  | text (text : String)
  | image (data : String) (mimeType : String)
deriving DecidableEq, Repr

/-- The informational message of the empty branch. -/
def noImagesMsg : String :=
  "No images were generated. This might be due to content filtering."

/-- The message of the registry variant's no-image-data branch. -/
def noDataMsg : String :=
  "Image generation failed - no image data received"

/-- Reaction of the registry-backed `generate_image_from_text` handler to
each classified outcome, returning the updated registry and the content
blocks.  On success it derives the filename and URI, stores the
`GeneratedImage` (with `mimeType: outputMimeType || "image/png"`, which
under the zod-defaulted enum is the request format), and reports the URI. -/
def react (registry : Registry) (prompt model : String) (fmt : MimeType) (now : Nat) :
    Outcome → Registry × List ContentBlock
  | .failure m => (registry, [.text ("Error generating image: " ++ m)])
  | .empty => (registry, [.text noImagesMsg])
  | .filtered reason => (registry, [.text ("Image was filtered: " ++ reason)])
  | .noData => (registry, [.text noDataMsg])
  | .success bytes =>
    (mapSet registry (deriveUri prompt now fmt)
      { uri := deriveUri prompt now fmt
        filename := deriveFilename prompt now fmt
        imageData := bytes
        mimeType := mimeString fmt
        prompt := prompt
        model := model
        timestamp := now },
      [.text ("Generated image using " ++ model ++ "\nResource available at: " ++
        deriveUri prompt now fmt ++ "\n\nUse MCP resources to view the image.")])

/-- The registry-backed `generate_image_from_text` handler: it performs
exactly one provider call (whose result is the `resp` argument), then
classifies and reacts.  The `try`/`catch` surrounding the body is the
`.failure` branch. -/
def handleGenerate (registry : Registry) (prompt model : String) (fmt : MimeType) (now : Nat)
    (resp : ProviderResult) : Registry × List ContentBlock :=
  react registry prompt model fmt now (classify resp)

/-- One element of the `contents` array returned by a resource read. -/
structure ReadContents where
  uri : String
  mimeType : String
  blob : String
deriving DecidableEq, Repr

/-- The `resources/read` handler: exact-key registry lookup; a missing key
throws `Resource not found: <uri>` (modelled as `Except.error`). -/
def readResource (registry : Registry) (uri : String) : Except String (List ReadContents) :=
  match mapGet registry uri with
  | none => .error ("Resource not found: " ++ uri)
  | some image => .ok [{ uri := image.uri, mimeType := image.mimeType, blob := image.imageData }]

/-- The `generated-image://{filename}` resource template callback of the
session-scoped variant: it rebuilds the full URI from the extracted
filename, looks it up, and throws `Resource not found` when absent.  The
served `uri` field is the href of the requested URI object. -/
def readTemplateResource (registry : Registry) (uriHref filename : String) :
    Except String (List ReadContents) :=
  match mapGet registry ("generated-image://" ++ filename) with
  | none => .error ("Resource not found: " ++ ("generated-image://" ++ filename))
  | some image => .ok [{ uri := uriHref, mimeType := image.mimeType, blob := image.imageData }]

/-- The display metadata served by the session-scoped list callback. -/
structure ResourceSummary where
  uri : String
  name : String
  title : String
  description : String
  mimeType : String
deriving DecidableEq, Repr

/-- One listed resource: uri, filename as name, truncated prompt in the
title, model in the description, and the stored mime type. -/
def summarize (img : GeneratedImage) : ResourceSummary :=
  { uri := img.uri
    name := img.filename
    title := "Generated Image: " ++ String.mk (img.prompt.data.take 50) ++ "..."
    description := "AI-generated image using " ++ img.model
    mimeType := img.mimeType }

/-- The list callback: summaries of all values of the registry. -/
def listResources (registry : Registry) : List ResourceSummary :=
  (mapValues registry).map summarize

/-- `sessionImageRegistries`: the map from session id to that session's
image registry. -/
abbrev Sessions := List (String × Registry)

/-- Lazy creation of a session's registry on first use:
`if (!sessionImageRegistries.has(sessionId)) set(sessionId, new Map())`. -/
def getOrCreateScope (sessions : Sessions) (sessionId : String) : Sessions :=
  if (mapGet sessions sessionId).isSome then sessions
  else mapSet sessions sessionId []

/-- The registry of a session (`sessionImageRegistries.get(sessionId)!`,
after creation; absent scopes read as empty). -/
def scopeOf (sessions : Sessions) (sessionId : String) : Registry :=
  (mapGet sessions sessionId).getD []

/-- `imageRegistry.set(uri, imageData)` performed inside one session's
scope: the in-place mutation of the session's inner map. -/
def sessionsPut (sessions : Sessions) (sessionId key : String) (art : GeneratedImage) : Sessions :=
  mapSet sessions sessionId (mapSet (scopeOf sessions sessionId) key art)

/-- Registry `get` within one session's scope. -/
def sessionsGet (sessions : Sessions) (sessionId key : String) : Option GeneratedImage :=
  mapGet (scopeOf sessions sessionId) key

/-- The list callback within one session's scope. -/
def sessionsList (sessions : Sessions) (sessionId : String) : List ResourceSummary :=
  listResources (scopeOf sessions sessionId)

/-- The files written by the file-saving variant: path to payload.
Directories (`mkdirSync`) hold no data and are not modelled; base64
decoding of the payload before the write is modelled as the identity on
the opaque payload. -/
abbrev FileSystem := List (String × String)

/-- The `results` array of `src/index.ts` in base64 mode: per image (with
1-based index in messages), a filtered text, an inline image block with
the request mime type, or a failure text. -/
def base64Blocks (fmt : MimeType) : Nat → List GenImage → List ContentBlock
  | _, [] => []
  | i, g :: gs =>
    (if truthy g.raiFilteredReason then
      ContentBlock.text ("Image " ++ toString (i + 1) ++ " was filtered: " ++
        g.raiFilteredReason.getD "")
    else if truthy (bytesOf g) then
      ContentBlock.image ((bytesOf g).getD "") (mimeString fmt)
    else
      ContentBlock.text ("Image " ++ toString (i + 1) ++ " generation failed - no image data received"))
    :: base64Blocks fmt (i + 1) gs

/-- The `forEach` save loop of `src/index.ts`: filtered entries and
missing-data entries add a text block; entries with bytes write
`<baseDir>/<filename>` and report the relative path.  `timestamp` and
`sanitizedPrompt` are computed before the loop, so `filename` is the same
for every image of the request and is passed in. -/
def saveImages (baseDir filename : String) :
    FileSystem → Nat → List GenImage → FileSystem × List ContentBlock
  | fs, _, [] => (fs, [])
  | fs, i, g :: gs =>
    if truthy g.raiFilteredReason then
      let r := saveImages baseDir filename fs (i + 1) gs
      (r.1, ContentBlock.text ("Image " ++ toString (i + 1) ++ " was filtered: " ++
        g.raiFilteredReason.getD "") :: r.2)
    else if truthy (bytesOf g) then
      let r := saveImages baseDir filename
        (mapSet fs (baseDir ++ "/" ++ filename) ((bytesOf g).getD "")) (i + 1) gs
      (r.1, ContentBlock.text ("Image " ++ toString (i + 1) ++ " saved to: " ++
        ("generated-images" ++ "/" ++ filename)) :: r.2)
    else
      let r := saveImages baseDir filename fs (i + 1) gs
      (r.1, ContentBlock.text ("Image " ++ toString (i + 1) ++
        " generation failed - no image data received") :: r.2)

/-- The `generate_image_from_text` handler of `src/index.ts` (stateless,
file-saving variant), as a function of the single provider call's result:
thrown error and empty branches return the corresponding text; base64 mode
returns inline blocks without touching the file system; save mode derives
the filename once and writes each image with bytes. -/
def handleGenerateSave (fs : FileSystem) (cwd prompt model : String) (fmt : MimeType)
    (returnBase64 : Bool) (now : Nat) (resp : ProviderResult) : FileSystem × List ContentBlock :=
  match resp with
  | .err m => (fs, [.text ("Error generating image: " ++ m)])
  | .ok none => (fs, [.text noImagesMsg])
  | .ok (some []) => (fs, [.text noImagesMsg])
  | .ok (some (g :: gs)) =>
    if returnBase64 then
      (fs, .text ("Generated " ++ toString (g :: gs).length ++ " image(s) using " ++ model ++
        " (base64 mode)") :: base64Blocks fmt 0 (g :: gs))
    else
      let r := saveImages (cwd ++ "/" ++ "generated-images") (deriveFilename prompt now fmt)
        fs 0 (g :: gs)
      (r.1, .text ("Generated " ++ toString (g :: gs).length ++ " image(s) using " ++ model ++
        "\nSaved to: ./" ++ "generated-images" ++ "/") :: r.2)

/-- Claim C3's Empty outcome condition: the provider returned zero images
(no `generatedImages` array, or an empty one). -/
def isEmptyResp (r : ProviderResult) : Prop :=
  r = .ok none ∨ r = .ok (some [])

/-- Claim C3's Filtered outcome condition: some returned image entry
carries a filter reason. -/
def isFilteredRespAny (r : ProviderResult) : Prop :=
  ∃ imgs g, r = .ok (some imgs) ∧ g ∈ imgs ∧ truthy g.raiFilteredReason = true

/-- Claim C3's Success outcome condition: image bytes present in some
returned entry. -/
def isSuccessRespAny (r : ProviderResult) : Prop :=
  ∃ imgs g, r = .ok (some imgs) ∧ g ∈ imgs ∧ truthy (bytesOf g) = true

/-- Claim C3's Failure outcome condition: the provider call raised. -/
def isFailureResp (r : ProviderResult) : Prop :=
  ∃ m, r = .err m

/-- Filtered condition as the code evaluates it: the first entry carries a
truthy filter reason. -/
def respFiltered (r : ProviderResult) : Prop :=
  ∃ g gs, r = .ok (some (g :: gs)) ∧ truthy g.raiFilteredReason = true

/-- Success condition as the code evaluates it: the first entry has no
truthy filter reason and truthy image bytes. -/
def respSuccess (r : ProviderResult) : Prop :=
  ∃ g gs, r = .ok (some (g :: gs)) ∧ truthy g.raiFilteredReason = false ∧
    truthy (bytesOf g) = true

/-- The fifth outcome's condition: the first entry has neither a truthy
filter reason nor truthy image bytes. -/
def respNoData (r : ProviderResult) : Prop :=
  ∃ g gs, r = .ok (some (g :: gs)) ∧ truthy g.raiFilteredReason = false ∧
    truthy (bytesOf g) = false


/-! ### Helper lemmas -/

/-- `Char.toLower` fixes every non-alphanumeric character (the mapped
range `A`–`Z` is alphabetic). -/
theorem toLower_eq_self_of_not_alnum {c : Char} (h : c.isAlphanum = false) : c.toLower = c := by
  show (if c.toNat ≥ 65 ∧ c.toNat ≤ 90 then Char.ofNat (c.toNat + 32) else c) = c
  split
  next hc =>
    exfalso
    obtain ⟨h1, h2⟩ := hc
    have hu : c.isUpper = true := by
      simp only [Char.isUpper, Bool.and_eq_true, decide_eq_true_eq]
      refine ⟨?_, ?_⟩
      · show (65 : UInt32) ≤ c.val
        rw [UInt32.le_def, BitVec.le_def]; simpa using h1
      · show c.val ≤ (90 : UInt32)
        rw [UInt32.le_def, BitVec.le_def]; simpa using h2
    simp [Char.isAlphanum, Char.isAlpha, hu] at h
  next => rfl

/-- `splitAtEachWs` always returns at least one chunk. -/
theorem splitAtEachWs_ne_nil (l : List Char) : splitAtEachWs l ≠ [] := by
  induction l with
  | nil => simp [splitAtEachWs]
  | cons c rest ih =>
    simp only [splitAtEachWs]
    split
    · simp
    · cases h : splitAtEachWs rest with
      | nil => exact absurd h ih
      | cons x xs => simp [h]

/-- The two run-skipping states of the JavaScript split agree with
splitting at each whitespace character followed by dropping interior
empty chunks. -/
theorem jsSplitAux_eq (l : List Char) :
    jsSplitAux false l = dropInteriorEmpties (splitAtEachWs l) ∧
    jsSplitAux true l = dropInterior (splitAtEachWs l) := by
  induction l with
  | nil => exact ⟨rfl, rfl⟩
  | cons c rest ih =>
    obtain ⟨ih1, ih2⟩ := ih
    cases h : jsWs c with
    | true =>
      constructor
      · simp only [jsSplitAux, splitAtEachWs, h, if_true]
        simp [dropInteriorEmpties, ih2]
      · simp only [jsSplitAux, splitAtEachWs, h, if_true]
        cases hs : splitAtEachWs rest with
        | nil => exact absurd hs (splitAtEachWs_ne_nil rest)
        | cons x xs =>
          rw [ih2, hs]
          simp [dropInterior]
    | false =>
      have key : List.modifyHead (fun t => c :: t) (jsSplitAux false rest) =
          dropInteriorEmpties (List.modifyHead (fun t => c :: t) (splitAtEachWs rest)) := by
        cases hs : splitAtEachWs rest with
        | nil => exact absurd hs (splitAtEachWs_ne_nil rest)
        | cons x xs =>
          rw [ih1, hs]
          simp [dropInteriorEmpties]
      constructor
      · simp only [jsSplitAux, splitAtEachWs, h, if_false]
        exact key
      · simp only [jsSplitAux, splitAtEachWs, h, if_false]
        cases hs : splitAtEachWs rest with
        | nil => exact absurd hs (splitAtEachWs_ne_nil rest)
        | cons x xs =>
          rw [ih1, hs]
          simp only [List.modifyHead_cons, dropInteriorEmpties]
          cases xs with
          | nil => simp [dropInterior]
          | cons y ys => simp [dropInterior]

/-- The code's split (JavaScript `split(/\s+/)`) equals the amended
specification's split. -/
theorem jsSplitWs_eq_specSplitWs (l : List Char) : jsSplitWs l = specSplitWs l :=
  (jsSplitAux_eq l).1

/-- The code's kept-character class equals the amended specification's
(alphanumeric, underscore, or whitespace). -/
theorem keepChar_eq_specKeepChar : keepChar = specKeepChar := by
  funext c
  simp [keepChar, isWordChar, specKeepChar]

theorem mapGet_set_self {V : Type} (m : List (String × V)) (k : String) (v : V) :
    mapGet (mapSet m k v) k = some v := by
  unfold mapSet
  split
  next h =>
    induction m with
    | nil => simp [hasKey] at h
    | cons p t ih =>
      by_cases hp : p.1 = k
      · simp [mapGet, hp]
      · have ht : hasKey t k = true := by simpa [hasKey, hp] using h
        simp only [List.map_cons, if_neg hp]
        simpa [mapGet, hp] using ih ht
  next h =>
    induction m with
    | nil => simp [mapGet]
    | cons p t ih =>
      by_cases hp : p.1 = k
      · exact absurd (by simp [hasKey, hp]) h
      · have ht : ¬hasKey t k = true := fun hh => h (by simp [hasKey, hp, hh])
        simpa [mapGet, hp] using ih ht

theorem mapGet_set_ne {V : Type} (m : List (String × V)) {k k' : String} (v : V) (hkk : k ≠ k') :
    mapGet (mapSet m k v) k' = mapGet m k' := by
  unfold mapSet
  split
  next h =>
    clear h
    induction m with
    | nil => rfl
    | cons p t ih =>
      by_cases hp : p.1 = k
      · simp only [List.map_cons, if_pos hp]
        have hp' : p.1 ≠ k' := by rw [hp]; exact hkk
        simpa [mapGet, hkk, hp'] using ih
      · simp only [List.map_cons, if_neg hp]
        by_cases hq : p.1 = k'
        · simp [mapGet, hq]
        · simpa [mapGet, hq] using ih
  next h =>
    clear h
    induction m with
    | nil => simp [mapGet, hkk]
    | cons p t ih =>
      by_cases hq : p.1 = k'
      · simp [mapGet, hq]
      · simpa [mapGet, hq] using ih

theorem mapGet_eq_none_of_not_mem {V : Type} {k : String} :
    ∀ {m : List (String × V)}, k ∉ m.map Prod.fst → mapGet m k = none
  | [], _ => rfl
  | p :: t, h => by
    simp only [List.map_cons, List.mem_cons, not_or] at h
    have hp : p.1 ≠ k := fun e => h.1 e.symm
    simpa [mapGet, hp] using mapGet_eq_none_of_not_mem h.2

/-! ### Claim theorems -/

/-- C1 counterexample: on the prompt `"a_b"` (timestamp 1, `image/png`)
the code keeps the underscore (JavaScript `\w` includes `_`), yielding
`1_a_b.png`, while the claim's algorithm (strip every character that is
not alphanumeric or whitespace) yields `1_ab.png`. -/
theorem c1_counterexample :
    deriveFilename "a_b" 1 MimeType.png ≠ specDeriveFilenameOrig "a_b" 1 MimeType.png ∧
    deriveFilename "a_b" 1 MimeType.png = "1_a_b.png" ∧
    specDeriveFilenameOrig "a_b" 1 MimeType.png = "1_ab.png" :=
  ⟨by decide, by decide, by decide⟩

/-- C1 (amended): for every prompt, timestamp and format, the derived
filename equals the result of lower-casing, stripping every character
that is not alphanumeric, an underscore, or whitespace, splitting on
whitespace runs with JavaScript boundary semantics (leading or trailing
whitespace contributes an empty word at that end), taking at most the
first 4 words, joining with underscores, truncating to 30 characters,
and assembling `<timestamp>_<core>.<ext>`. -/
theorem c1_filename_derivation (prompt : String) (t : Nat) (fmt : MimeType) :
    deriveFilename prompt t fmt = specDeriveFilename prompt t fmt := by
  unfold deriveFilename specDeriveFilename sanitizeCore
  rw [keepChar_eq_specKeepChar, jsSplitWs_eq_specSplitWs]

/-- C2 counterexample: the derivation at the scenario's exact inputs does
not produce the claimed filename `1754998591_majestic_dragon_soaring_thr.png`
(the code's first four words include the leading `"a"`). -/
theorem c2_counterexample :
    deriveFilename "A majestic dragon soaring through a sunset sky" 1754998591 MimeType.png ≠
      "1754998591_majestic_dragon_soaring_thr.png" := by
  decide

/-- C2 (amended): scenario 1 produces the sanitized core
`a_majestic_dragon_soaring` (25 characters, within the 30-character cap
that is applied to the joined words before the extension is appended),
giving exactly `1754998591_a_majestic_dragon_soaring.png`. -/
theorem c2_scenario1 :
    deriveFilename "A majestic dragon soaring through a sunset sky" 1754998591 MimeType.png =
      "1754998591_a_majestic_dragon_soaring.png" ∧
    sanitizeCore "A majestic dragon soaring through a sunset sky" =
      "a_majestic_dragon_soaring".data ∧
    "a_majestic_dragon_soaring".data.length ≤ 30 :=
  ⟨by decide, by decide, by decide⟩

/-- C7 counterexample: `"_"` is a prompt of punctuation only (no
alphanumeric character, no whitespace), yet the derivation keeps the
underscore and produces `1__.png`, not the claimed `<t>_.<ext>` form
`1_.png`. -/
theorem c7_counterexample :
    isPunctOnly "_" = true ∧
    deriveFilename "_" 1 MimeType.png = "1__.png" ∧
    deriveFilename "_" 1 MimeType.png ≠ "1_.png" :=
  ⟨by decide, by decide, by decide⟩

/-- C7 (amended): for every prompt consisting only of punctuation
characters other than the underscore, and every timestamp and format,
derivation succeeds with an empty sanitized segment, yielding exactly
`<t>_.<ext>`. -/
theorem c7_punct_only_prompt (prompt : String) (t : Nat) (fmt : MimeType)
    (h : isPunctOnlyNoUnderscore prompt = true) :
    deriveFilename prompt t fmt = toString t ++ "_." ++ extString fmt := by
  have hfilter : (prompt.data.map Char.toLower).filter keepChar = [] := by
    rw [List.filter_eq_nil_iff]
    intro a ha
    rw [List.mem_map] at ha
    obtain ⟨c, hc, rfl⟩ := ha
    rw [isPunctOnlyNoUnderscore, List.all_eq_true] at h
    have hc3 := h c hc
    simp only [Bool.and_eq_true, Bool.not_eq_true'] at hc3
    rw [toLower_eq_self_of_not_alnum hc3.1.1]
    simp [keepChar, isWordChar, hc3.1.1, hc3.1.2, hc3.2]
  unfold deriveFilename sanitizeCore
  rw [hfilter]
  have hmk : String.mk ((List.intercalate ['_'] ((jsSplitWs ([] : List Char)).take 4)).take 30) = "" := rfl
  rw [hmk]
  apply String.ext
  simp

/-- C7 witness: the punctuation-only prompt `"!!!"` with timestamp 5 and
`image/png` derives to `5_.png`. -/
theorem c7_punct_only_prompt_witness :
    isPunctOnlyNoUnderscore "!!!" = true ∧
    deriveFilename "!!!" 5 MimeType.png = toString 5 ++ "_." ++ extString MimeType.png :=
  ⟨by decide, c7_punct_only_prompt "!!!" 5 MimeType.png (by decide)⟩

/-- C3 counterexample: the response whose single image entry has neither a
filter reason nor image bytes satisfies none of the claim's four outcome
conditions (Empty, Filtered, Success, Failure), yet the handler still
reacts to it — with the fifth, no-image-data outcome.  The four outcomes
are therefore not exhaustive over the provider's possible responses. -/
theorem c3_counterexample :
    ¬(isEmptyResp (ProviderResult.ok (some [GenImage.mk none none])) ∨
      isFilteredRespAny (ProviderResult.ok (some [GenImage.mk none none])) ∨
      isSuccessRespAny (ProviderResult.ok (some [GenImage.mk none none])) ∨
      isFailureResp (ProviderResult.ok (some [GenImage.mk none none]))) ∧
    classify (ProviderResult.ok (some [GenImage.mk none none])) = Outcome.noData := by
  constructor
  · rintro (h | h | h | h)
    · rcases h with h | h <;> simp at h
    · obtain ⟨imgs, g, he, hm, hr⟩ := h
      have himgs : imgs = [GenImage.mk none none] := by
        have := he
        simp only [ProviderResult.ok.injEq, Option.some.injEq] at this
        exact this.symm
      subst himgs
      simp at hm
      subst hm
      simp [truthy] at hr
    · obtain ⟨imgs, g, he, hm, hr⟩ := h
      have himgs : imgs = [GenImage.mk none none] := by
        have := he
        simp only [ProviderResult.ok.injEq, Option.some.injEq] at this
        exact this.symm
      subst himgs
      simp at hm
      subst hm
      simp [truthy, bytesOf] at hr
    · obtain ⟨m, hm⟩ := h
      exact ProviderResult.noConfusion hm
  · rfl

/-- C3 (amended): the handler performs exactly one provider call (its
result is the one `ProviderResult` the classification consumes) and
classifies it into exactly one of five outcomes — Empty (no image array
or zero images), Filtered (the first entry carries a truthy filter
reason), Success (first entry unfiltered with truthy image bytes), NoData
(first entry with neither, reported as a generation failure), Failure
(the call raised).  The five conditions below are mutually exclusive and
exhaustive because `classify` is a total function into five disjoint
constructor families, and each condition holds exactly when `classify`
lands in its family. -/
theorem c3_classification (r : ProviderResult) :
    (isEmptyResp r ↔ classify r = Outcome.empty) ∧
    (respFiltered r ↔ ∃ s, classify r = Outcome.filtered s) ∧
    (respSuccess r ↔ ∃ b, classify r = Outcome.success b) ∧
    (respNoData r ↔ classify r = Outcome.noData) ∧
    (isFailureResp r ↔ ∃ m, classify r = Outcome.failure m) := by
  cases r with
  | err m =>
    simp [classify, isEmptyResp, respFiltered, respSuccess, respNoData, isFailureResp]
  | ok o =>
    cases o with
    | none =>
      simp [classify, isEmptyResp, respFiltered, respSuccess, respNoData, isFailureResp]
    | some imgs =>
      cases imgs with
      | nil =>
        simp [classify, isEmptyResp, respFiltered, respSuccess, respNoData, isFailureResp]
      | cons g gs =>
        by_cases hf : truthy g.raiFilteredReason = true
        · simp [classify, hf, isEmptyResp, respFiltered, respSuccess, respNoData, isFailureResp]
        · have hf' : truthy g.raiFilteredReason = false := by
            simpa using hf
          by_cases hb : truthy (bytesOf g) = true
          · simp [classify, hf', hb, isEmptyResp, respFiltered, respSuccess, respNoData,
              isFailureResp]
          · have hb' : truthy (bytesOf g) = false := by
              simpa using hb
            simp [classify, hf', hb', isEmptyResp, respFiltered, respSuccess, respNoData,
              isFailureResp]

/-- C4: a registry read (both the `resources/read` handler and the
`generated-image://{filename}` template callback) on an identifier never
inserted signals the distinct `Resource not found` error and never
returns a success (so never a default or empty artifact). -/
theorem c4_read_not_found (reg : Registry) (uri uriHref fn : String)
    (h1 : uri ∉ reg.map Prod.fst)
    (h2 : ("generated-image://" ++ fn) ∉ reg.map Prod.fst) :
    readResource reg uri = .error ("Resource not found: " ++ uri) ∧
    (∀ c, readResource reg uri ≠ .ok c) ∧
    readTemplateResource reg uriHref fn =
      .error ("Resource not found: " ++ ("generated-image://" ++ fn)) ∧
    (∀ c, readTemplateResource reg uriHref fn ≠ .ok c) := by
  have e1 : readResource reg uri = .error ("Resource not found: " ++ uri) := by
    unfold readResource
    rw [mapGet_eq_none_of_not_mem h1]
  have e2 : readTemplateResource reg uriHref fn =
      .error ("Resource not found: " ++ ("generated-image://" ++ fn)) := by
    unfold readTemplateResource
    rw [mapGet_eq_none_of_not_mem h2]
  refine ⟨e1, fun c hc => ?_, e2, fun c hc => ?_⟩
  · rw [e1] at hc; exact Except.noConfusion hc
  · rw [e2] at hc; exact Except.noConfusion hc

/-- C4 witness: reading `"u"` (and template filename `"f"`) from an empty
registry yields the not-found error. -/
theorem c4_read_not_found_witness :
    ("u" ∉ ([] : Registry).map Prod.fst) ∧
    ("generated-image://" ++ "f" ∉ ([] : Registry).map Prod.fst) ∧
    (readResource [] "u" = .error ("Resource not found: " ++ "u") ∧
     (∀ c, readResource [] "u" ≠ .ok c) ∧
     readTemplateResource [] "h" "f" =
       .error ("Resource not found: " ++ ("generated-image://" ++ "f")) ∧
     (∀ c, readTemplateResource [] "h" "f" ≠ .ok c)) :=
  ⟨by simp, by simp, c4_read_not_found [] "u" "h" "f" (by simp) (by simp)⟩

/-- C5: a provider error is caught and converted to a text block whose
content is the fixed prefix followed by the error's description; the
registry is unchanged and any subsequent request behaves exactly as it
would have before the failing one. -/
theorem c5_provider_error_caught (registry : Registry) (prompt model : String) (fmt : MimeType)
    (now : Nat) (msg : String) :
    handleGenerate registry prompt model fmt now (.err msg) =
      (registry, [ContentBlock.text ("Error generating image: " ++ msg)]) ∧
    (∀ resp', handleGenerate (handleGenerate registry prompt model fmt now (.err msg)).1
      prompt model fmt now resp' = handleGenerate registry prompt model fmt now resp') :=
  ⟨rfl, fun _ => rfl⟩

/-- C6: when the provider returns zero generated images (an empty array
or no array at all), both the registry-backed handler and the file-saving
handler return only the informational text, leave the registry exactly as
it was, and write no file. -/
theorem c6_empty_no_effect (registry : Registry) (fs : FileSystem) (cwd prompt model : String)
    (fmt : MimeType) (returnBase64 : Bool) (now : Nat) :
    handleGenerate registry prompt model fmt now (.ok (some [])) =
      (registry, [ContentBlock.text noImagesMsg]) ∧
    handleGenerate registry prompt model fmt now (.ok none) =
      (registry, [ContentBlock.text noImagesMsg]) ∧
    handleGenerateSave fs cwd prompt model fmt returnBase64 now (.ok (some [])) =
      (fs, [ContentBlock.text noImagesMsg]) ∧
    handleGenerateSave fs cwd prompt model fmt returnBase64 now (.ok none) =
      (fs, [ContentBlock.text noImagesMsg]) :=
  ⟨rfl, rfl, rfl, rfl⟩

/-- C8: `put` followed immediately by `get` with the same key in the same
session scope returns exactly the stored artifact (all of its bytes and
metadata fields). -/
theorem c8_put_get_roundtrip (sessions : Sessions) (sessionId key : String)
    (art : GeneratedImage) :
    sessionsGet (sessionsPut sessions sessionId key art) sessionId key = some art := by
  unfold sessionsGet sessionsPut scopeOf
  rw [mapGet_set_self]
  exact mapGet_set_self _ key art

/-- C9: operations on one session's scope are invisible to a different
session key: after a `put` under `sid1` (or lazy creation of `sid1`'s
scope), the scope, `get`, and resource list observed under `sid2` are
unchanged. -/
theorem c9_scope_isolation (sessions : Sessions) (sid1 sid2 key key2 : String)
    (art : GeneratedImage) (h : sid1 ≠ sid2) :
    scopeOf (sessionsPut sessions sid1 key art) sid2 = scopeOf sessions sid2 ∧
    sessionsGet (sessionsPut sessions sid1 key art) sid2 key2 = sessionsGet sessions sid2 key2 ∧
    sessionsList (sessionsPut sessions sid1 key art) sid2 = sessionsList sessions sid2 ∧
    scopeOf (getOrCreateScope sessions sid1) sid2 = scopeOf sessions sid2 := by
  have hscope : scopeOf (sessionsPut sessions sid1 key art) sid2 = scopeOf sessions sid2 := by
    unfold sessionsPut scopeOf
    rw [mapGet_set_ne _ _ h]
  have hcreate : scopeOf (getOrCreateScope sessions sid1) sid2 = scopeOf sessions sid2 := by
    unfold getOrCreateScope scopeOf
    split
    · rfl
    · rw [mapGet_set_ne _ _ h]
  refine ⟨hscope, ?_, ?_, hcreate⟩
  · unfold sessionsGet
    rw [hscope]
  · unfold sessionsList
    rw [hscope]

/-- C9 witness: a put under session `"s1"` starting from no sessions is
invisible under session `"s2"`. -/
theorem c9_scope_isolation_witness :
    ("s1" : String) ≠ "s2" ∧
    (scopeOf (sessionsPut [] "s1" "k" ⟨"u", "f", "d", "image/png", "p", "m", 0⟩) "s2" =
       scopeOf [] "s2" ∧
     sessionsGet (sessionsPut [] "s1" "k" ⟨"u", "f", "d", "image/png", "p", "m", 0⟩) "s2" "k2" =
       sessionsGet [] "s2" "k2" ∧
     sessionsList (sessionsPut [] "s1" "k" ⟨"u", "f", "d", "image/png", "p", "m", 0⟩) "s2" =
       sessionsList [] "s2" ∧
     scopeOf (getOrCreateScope [] "s1") "s2" = scopeOf [] "s2") :=
  ⟨by decide, c9_scope_isolation [] "s1" "s2" "k" "k2" ⟨"u", "f", "d", "image/png", "p", "m", 0⟩
    (by decide)⟩

/-- C10: on a successful generation the stored artifact's mime type, the
mime type served by a subsequent resource read, and the inline image
block of base64 mode are all the request's (zod-defaulted) output format
— never anything taken from the provider's response, whose `image.mimeType`
field the handler ignores (the result below holds for every provider
entry `g`) — and that format's string is always `image/png` or
`image/jpeg`; an omitted parameter defaults to `image/png`. -/
theorem c10_mime_from_request (registry : Registry) (prompt model : String) (fmt : MimeType)
    (now : Nat) (g : GenImage) (gs : List GenImage)
    (hf : truthy g.raiFilteredReason = false) (hb : truthy (bytesOf g) = true) :
    (∃ art : GeneratedImage,
      mapGet (handleGenerate registry prompt model fmt now (.ok (some (g :: gs)))).1
        (deriveUri prompt now fmt) = some art ∧
      art.mimeType = mimeString fmt ∧
      art.imageData = (bytesOf g).getD "") ∧
    (∃ blob, readResource (handleGenerate registry prompt model fmt now (.ok (some (g :: gs)))).1
      (deriveUri prompt now fmt) =
      .ok [{ uri := deriveUri prompt now fmt, mimeType := mimeString fmt, blob := blob }]) ∧
    base64Blocks fmt 0 [g] = [ContentBlock.image ((bytesOf g).getD "") (mimeString fmt)] ∧
    (mimeString fmt = "image/png" ∨ mimeString fmt = "image/jpeg") ∧
    applyMimeDefault none = MimeType.png := by
  have hcl : classify (.ok (some (g :: gs))) = .success ((bytesOf g).getD "") := by
    simp [classify, hf, hb]
  have hget : mapGet (handleGenerate registry prompt model fmt now (.ok (some (g :: gs)))).1
      (deriveUri prompt now fmt) = some
      { uri := deriveUri prompt now fmt
        filename := deriveFilename prompt now fmt
        imageData := (bytesOf g).getD ""
        mimeType := mimeString fmt
        prompt := prompt
        model := model
        timestamp := now } := by
    unfold handleGenerate
    rw [hcl]
    exact mapGet_set_self _ _ _
  refine ⟨⟨_, hget, rfl, rfl⟩, ⟨(bytesOf g).getD "", ?_⟩, ?_, ?_, rfl⟩
  · unfold readResource
    rw [hget]
  · simp [base64Blocks, hf, hb]
  · cases fmt
    · exact Or.inl rfl
    · exact Or.inr rfl

/-- C10 witness: a concrete unfiltered provider entry with bytes, request
format `image/png`. -/
theorem c10_mime_from_request_witness :
    truthy (GenImage.mk none (some (ImageObj.mk (some "QUJD") none))).raiFilteredReason = false ∧
    truthy (bytesOf (GenImage.mk none (some (ImageObj.mk (some "QUJD") none)))) = true ∧
    ((∃ art : GeneratedImage,
      mapGet (handleGenerate [] "x" "m" MimeType.png 1
          (.ok (some [GenImage.mk none (some (ImageObj.mk (some "QUJD") none))]))).1
        (deriveUri "x" 1 MimeType.png) = some art ∧
      art.mimeType = mimeString MimeType.png ∧
      art.imageData = (bytesOf (GenImage.mk none (some (ImageObj.mk (some "QUJD") none)))).getD "") ∧
    (∃ blob, readResource (handleGenerate [] "x" "m" MimeType.png 1
        (.ok (some [GenImage.mk none (some (ImageObj.mk (some "QUJD") none))]))).1
      (deriveUri "x" 1 MimeType.png) =
      .ok [{ uri := deriveUri "x" 1 MimeType.png, mimeType := mimeString MimeType.png,
             blob := blob }]) ∧
    base64Blocks MimeType.png 0 [GenImage.mk none (some (ImageObj.mk (some "QUJD") none))] =
      [ContentBlock.image
        ((bytesOf (GenImage.mk none (some (ImageObj.mk (some "QUJD") none)))).getD "")
        (mimeString MimeType.png)] ∧
    (mimeString MimeType.png = "image/png" ∨ mimeString MimeType.png = "image/jpeg") ∧
    applyMimeDefault none = MimeType.png) :=
  ⟨rfl, rfl, c10_mime_from_request [] "x" "m" MimeType.png 1
    (GenImage.mk none (some (ImageObj.mk (some "QUJD") none))) [] rfl rfl⟩

end GeminiImagen
